import Mathlib

/-!
Verification of the difficultai conversation-analysis and adaptive-scoring
engine, shallowly embedded from the Python source.

The embedding covers:
- the utterance classifier `DifficultAI._analyze_response_quality`
- the commitment extractor `DifficultAI._extract_commitments`
- the difficulty controller `DifficultAI._update_difficulty`
- the score calculator and 1-10 conversion of `EvaluatorAgent`
- the feedback selector `EvaluatorAgent._generate_feedback`

Strings are modelled as lists of characters; numeric state uses `Nat`, `Int`
and `Rat`.  Python `dict.get` defaulting is modelled with `Option.getD`.
-/

namespace DifficultAI

/-- ASCII lowercasing of one character, as Python `str.lower` acts on the
ASCII marker alphabet used by the classifier. -/
def lowerChar (c : Char) : Char :=
  if 'A' ≤ c ∧ c ≤ 'Z' then Char.ofNat (c.toNat + 32) else c

/-- `leadsWith needle hay` is true when `needle` occurs at the head of
`hay` (list version of string-prefix testing). -/
def leadsWith : List Char → List Char → Bool
  | [], _ => true
  | _ :: _, [] => false
  | a :: as, b :: bs => a == b && leadsWith as bs

/-- Python's substring containment `needle in hay`. -/
def containsSub (needle : List Char) : List Char → Bool
  | [] => needle.isEmpty
  | c :: t => leadsWith needle (c :: t) || containsSub needle t

/-- Index of the first occurrence of `needle` in `hay`
(Python `hay.index(needle)` / `hay.find(needle)` when present). -/
def firstIdx (needle : List Char) : List Char → Option Nat
  | [] => if needle.isEmpty then some 0 else none
  | c :: t =>
    if leadsWith needle (c :: t) then some 0
    else (firstIdx needle t).map (· + 1)

/-- Whitespace characters recognised by Python `str.strip`. -/
def isSpaceChar (c : Char) : Bool :=
  c == ' ' || c == '\t' || c == '\n' || c == '\r' ||
  c == Char.ofNat 11 || c == Char.ofNat 12

/-- Python `str.strip`: drop leading and trailing whitespace. -/
def trimChars (l : List Char) : List Char :=
  ((l.dropWhile isSpaceChar).reverse.dropWhile isSpaceChar).reverse

/-- Classification of one utterance,
the dictionary returned by `DifficultAI._analyze_response_quality`
(the derived word-count entry is not modelled; no claim mentions it). -/
structure Analysis where
  is_vague : Bool
  is_deflecting : Bool
  is_concrete : Bool
deriving Repr, DecidableEq

/-- `vague_indicators` of `_analyze_response_quality`. -/
def vague_indicators : List String :=
  ["maybe", "possibly", "probably", "i think", "perhaps",
   "kind of", "sort of", "not sure", "we'll see", "hopefully"]

/-- `deflection_indicators` of `_analyze_response_quality`. -/
def deflection_indicators : List String :=
  ["let's talk about", "what about", "but first",
   "before we get to that", "can we discuss", "moving on"]

/-- Weekday and month names checked by `_analyze_response_quality`. -/
def date_words : List String :=
  ["monday", "tuesday", "wednesday", "thursday", "friday", "saturday",
   "sunday", "january", "february", "march", "april", "may", "june",
   "july", "august", "september", "october", "november", "december"]

/-- Action-verb markers checked by `_analyze_response_quality`. -/
def action_verbs : List String :=
  ["will", "commit to", "promise", "guarantee", "deliver"]

/-- `DifficultAI._analyze_response_quality`. -/
def analyze_response_quality (user_message : String) : Analysis :=
  let message_lower := user_message.toList.map lowerChar
  let is_vague :=
    vague_indicators.any (fun ind => containsSub ind.toList message_lower)
  let is_deflecting :=
    deflection_indicators.any (fun ind => containsSub ind.toList message_lower)
  let has_numbers := user_message.toList.any Char.isDigit
  let has_specific_date :=
    date_words.any (fun w => containsSub w.toList message_lower)
  let has_action_verb :=
    action_verbs.any (fun w => containsSub w.toList message_lower)
  { is_vague := is_vague
    is_deflecting := is_deflecting
    is_concrete := has_numbers || has_specific_date || has_action_verb }

/-- `commitment_phrases` of `DifficultAI._extract_commitments`. -/
def commitment_phrases : List String :=
  ["i will", "i'll", "i commit to", "i promise",
   "i guarantee", "we will", "we'll", "by"]

/-- One iteration of the loop body of `DifficultAI._extract_commitments`:
if `phrase` occurs in the lowered message, the original-case slice from its
first occurrence up to (excluding) the next period — or the end of the text —
is stripped; an empty result is discarded. -/
def commitmentAt (user_message message_lower phrase : List Char) :
    Option (List Char) :=
  match firstIdx phrase message_lower with
  | none => none
  | some start =>
    let stop :=
      match firstIdx ['.'] (message_lower.drop start) with
      | some k => start + k
      | none => message_lower.length
    let commitment := trimChars ((user_message.drop start).take (stop - start))
    if commitment = [] then none else some commitment

/-- `DifficultAI._extract_commitments`: iterate the commitment phrases in
list order, appending each extracted commitment. -/
def extract_commitments (user_message : List Char) : List (List Char) :=
  let message_lower := user_message.map lowerChar
  (commitment_phrases.map String.toList).foldl
    (fun commitments phrase =>
      match commitmentAt user_message message_lower phrase with
      | none => commitments
      | some c => commitments ++ [c]) []

/-- The claimed reading of `_extract_commitments`: one (possibly discarded)
extraction per marker, in marker-list iteration order. -/
def extract_commitments_claim (user_message : List Char) : List (List Char) :=
  (commitment_phrases.map String.toList).filterMap
    (commitmentAt user_message (user_message.map lowerChar))

/-- Mutable counters of a `DifficultAI` session that `_update_difficulty`
reads and writes (`commitments_made` is the length of the commitment list). -/
structure AIState where
  difficulty_level : Int
  vague_response_count : Nat
  deflection_count : Nat
  commitments_made : Nat
deriving Repr, DecidableEq

/-- Initial session state set by `DifficultAI.__init__`. -/
def initState : AIState :=
  { difficulty_level := 1
    vague_response_count := 0
    deflection_count := 0
    commitments_made := 0 }

/-- `DifficultAI._update_difficulty`, applied to an explicit state. -/
def update_difficulty (s : AIState) (analysis : Analysis) : AIState :=
  let s1 :=
    if analysis.is_vague then
      let v := s.vague_response_count + 1
      if v ≥ 2 ∧ s.difficulty_level < 5 then
        { s with vague_response_count := v,
                 difficulty_level := s.difficulty_level + 1 }
      else { s with vague_response_count := v }
    else s
  let s2 :=
    if analysis.is_deflecting then
      let d := s1.deflection_count + 1
      if d ≥ 2 ∧ s1.difficulty_level < 5 then
        { s1 with deflection_count := d,
                  difficulty_level := s1.difficulty_level + 1 }
      else { s1 with deflection_count := d }
    else s1
  if analysis.is_concrete ∧ ¬ analysis.is_vague ∧ s2.difficulty_level > 1 then
    if s2.commitments_made ≥ 2 then
      { s2 with difficulty_level := max 1 (s2.difficulty_level - 1) }
    else s2
  else s2

/-- One `DifficultAI.chat` call as it affects the tracked state: newly
extracted commitments are appended (here: their count added) before
`_update_difficulty` runs. -/
def chat_step (s : AIState) (step : Analysis × Nat) : AIState :=
  update_difficulty
    { s with commitments_made := s.commitments_made + step.2 } step.1

end DifficultAI

namespace Evaluator

/-- The metrics record consumed by `EvaluatorAgent`; every field may be
absent, as with a Python dict, and is read through a `.get` default. -/
structure Metrics where
  vague_response_count : Option ℚ
  deflection_count : Option ℚ
  commitments_made : Option ℚ
  total_exchanges : Option ℚ
  current_difficulty : Option ℚ
  scenario_difficulty : Option ℚ
deriving Repr, DecidableEq

/-- `EvaluatorAgent._calculate_clarity_score` (0-100 internal scale). -/
def calculate_clarity_score (m : Metrics) : ℚ :=
  let vague_count := m.vague_response_count.getD 0
  let total_exchanges := m.total_exchanges.getD 1
  if total_exchanges = 0 then 100
  else
    let vague_ratio := vague_count / total_exchanges
    max 0 (min 100 (100 - vague_ratio * 100))

/-- `EvaluatorAgent._calculate_confidence_score` (0-100 internal scale). -/
def calculate_confidence_score (m : Metrics) : ℚ :=
  let deflection_count := m.deflection_count.getD 0
  let total_exchanges := m.total_exchanges.getD 1
  if total_exchanges = 0 then 100
  else
    let deflection_ratio := deflection_count / total_exchanges
    max 0 (min 100 (100 - deflection_ratio * 100))

/-- `EvaluatorAgent._calculate_commitment_score` (0-100 internal scale). -/
def calculate_commitment_score (m : Metrics) : ℚ :=
  let commitments := m.commitments_made.getD 0
  let total_exchanges := m.total_exchanges.getD 1
  if total_exchanges = 0 then 0
  else
    let target_ratio : ℚ := 1 / 3
    let actual_ratio := commitments / total_exchanges
    max 0 (min 100 (actual_ratio / target_ratio * 100))

/-- `EvaluatorAgent._calculate_adaptability_score` (0-100 internal scale). -/
def calculate_adaptability_score (m : Metrics) : ℚ :=
  let current_difficulty := m.current_difficulty.getD 1
  let scenario_difficulty := m.scenario_difficulty.getD 1
  let difficulty_delta := current_difficulty - scenario_difficulty
  let score := if difficulty_delta ≤ 0 then 100
               else 100 - difficulty_delta * 20
  max 0 (min 100 score)

/-- `EvaluatorAgent._calculate_composure_score` (0-100 internal scale). -/
def calculate_composure_score (m : Metrics) : ℚ :=
  let vague_count := m.vague_response_count.getD 0
  let deflection_count := m.deflection_count.getD 0
  let total_exchanges := m.total_exchanges.getD 1
  if total_exchanges = 0 then 100
  else
    let stress_indicators := (vague_count + deflection_count) / total_exchanges
    max 0 (min 100 (100 - stress_indicators * 50))

/-- `EvaluatorAgent._convert_to_10_scale`. -/
def convert_to_10_scale (score_100 : ℚ) : ℚ :=
  max 1 (min 10 (1 + score_100 / 100 * 9))

/-- Six-dimension score record (1-10 scale), the `PerformanceScore`
dataclass. -/
structure PerformanceScore where
  clarity : ℚ
  confidence : ℚ
  commitment : ℚ
  adaptability : ℚ
  composure : ℚ
  effectiveness : ℚ
deriving Repr, DecidableEq

/-- The weighted effectiveness blend computed inside
`EvaluatorAgent.evaluate_conversation` on the 0-100 internal scale. -/
def effectiveness_score_100 (m : Metrics) : ℚ :=
  calculate_clarity_score m * (25 / 100) +
  calculate_confidence_score m * (20 / 100) +
  calculate_commitment_score m * (25 / 100) +
  calculate_adaptability_score m * (15 / 100) +
  calculate_composure_score m * (15 / 100)

/-- The `PerformanceScore` built by `EvaluatorAgent.evaluate_conversation`:
each internal 0-100 score converted to the 1-10 scale. -/
def evaluate_scores (m : Metrics) : PerformanceScore :=
  { clarity := convert_to_10_scale (calculate_clarity_score m)
    confidence := convert_to_10_scale (calculate_confidence_score m)
    commitment := convert_to_10_scale (calculate_commitment_score m)
    adaptability := convert_to_10_scale (calculate_adaptability_score m)
    composure := convert_to_10_scale (calculate_composure_score m)
    effectiveness := convert_to_10_scale (effectiveness_score_100 m) }

/-- The `Feedback` dataclass. -/
structure Feedback where
  coaching_points : List String
  key_moments : List String
deriving Repr, DecidableEq

/-- Coaching message emitted when clarity < 5. -/
def clarity_weak_text : String :=
  "Focus on specificity: Replace vague language with concrete numbers, dates, and commitments"

/-- Coaching message emitted when clarity ≥ 8. -/
def clarity_strength_text : String :=
  "Excellent clarity - maintain this level of specificity in future conversations"

/-- Coaching message emitted when confidence < 5. -/
def confidence_weak_text : String :=
  "Address questions directly: Avoid deflecting or changing topics when challenged"

/-- Coaching message emitted when confidence ≥ 8. -/
def confidence_strength_text : String :=
  "Strong confidence shown - keep facing difficult questions head-on"

/-- Coaching message emitted when commitment < 5. -/
def commitment_weak_text : String :=
  "Make concrete commitments: Include specific timelines and measurable deliverables"

/-- Coaching message emitted when commitment ≥ 8. -/
def commitment_strength_text : String :=
  "Great commitment quality - continue providing specific, actionable promises"

/-- Coaching message emitted when adaptability < 5. -/
def adaptability_weak_text : String :=
  "Improve under pressure: Practice maintaining performance when difficulty increases"

/-- Coaching message emitted when composure < 5. -/
def composure_weak_text : String :=
  "Stay calm and collected: Take a breath before responding when feeling pressured"

/-- Coaching message emitted when effectiveness < 5. -/
def effectiveness_weak_text : String :=
  "Align responses with goals: Keep your objective in mind and steer toward it"

/-- Generic filler coaching point used to pad to three messages. -/
def filler_text : String :=
  "Continue practicing high-pressure conversations to build resilience"

/-- The `coaching_candidates` list built by `_generate_feedback`, in
construction order (weakness `if` / strength `elif` per dimension). -/
def coaching_candidates (scores : PerformanceScore) : List (String × String) :=
  (if scores.clarity < 5 then [("clarity", clarity_weak_text)]
   else if scores.clarity ≥ 8 then [("clarity_strength", clarity_strength_text)]
   else []) ++
  (if scores.confidence < 5 then [("confidence", confidence_weak_text)]
   else if scores.confidence ≥ 8 then
     [("confidence_strength", confidence_strength_text)]
   else []) ++
  (if scores.commitment < 5 then [("commitment", commitment_weak_text)]
   else if scores.commitment ≥ 8 then
     [("commitment_strength", commitment_strength_text)]
   else []) ++
  (if scores.adaptability < 5 then [("adaptability", adaptability_weak_text)]
   else []) ++
  (if scores.composure < 5 then [("composure", composure_weak_text)]
   else []) ++
  (if scores.effectiveness < 5 then
     [("effectiveness", effectiveness_weak_text)]
   else [])

/-- The pattern `"_strength"` removed by the sort key's `str.replace`. -/
def strength_pat : List Char := "_strength".toList

/-- Python `category.replace("_strength", "")`, fuelled so the recursion is
structural: remove every occurrence of `"_strength"`, scanning left to right.
Each step consumes at least one character, so fuel `l.length` suffices. -/
def replaceStrengthFuel : Nat → List Char → List Char
  | 0, _ => []
  | _, [] => []
  | fuel + 1, c :: t =>
    if DifficultAI.leadsWith strength_pat (c :: t) then
      replaceStrengthFuel fuel (t.drop (strength_pat.length - 1))
    else
      c :: replaceStrengthFuel fuel t

/-- Python `category.replace("_strength", "")`. -/
def replaceStrength (l : List Char) : List Char :=
  replaceStrengthFuel l.length l

/-- `scores.__dict__.get(name, 0)`: dimension lookup by field name with
default 0. -/
def dimScore (scores : PerformanceScore) (name : List Char) : ℚ :=
  if name = "clarity".toList then scores.clarity
  else if name = "confidence".toList then scores.confidence
  else if name = "commitment".toList then scores.commitment
  else if name = "adaptability".toList then scores.adaptability
  else if name = "composure".toList then scores.composure
  else if name = "effectiveness".toList then scores.effectiveness
  else 0

/-- The sort key of `_generate_feedback`:
`(0 if "strength" not in category else 1, -score_of_base_dimension)`. -/
def sortKey (scores : PerformanceScore) (cand : String × String) : ℕ × ℚ :=
  ((if DifficultAI.containsSub "strength".toList cand.1.toList then 1 else 0),
   - dimScore scores (replaceStrength cand.1.toList))

/-- Strict lexicographic comparison of sort keys. -/
def keyLt (a b : ℕ × ℚ) : Bool :=
  if a.1 < b.1 then true
  else if a.1 = b.1 then decide (a.2 < b.2)
  else false

/-- Strict candidate comparison used by the stable sort. -/
def candLt (scores : PerformanceScore) (a b : String × String) : Bool :=
  keyLt (sortKey scores a) (sortKey scores b)

/-- Insert `x` after every element whose key is ≤ `x`'s key: the placement
Python's stable ascending sort gives a later-arriving element. -/
def insertBefore {α : Type} (lt : α → α → Bool) (x : α) : List α → List α
  | [] => [x]
  | y :: t => if lt x y then x :: y :: t else y :: insertBefore lt x t

/-- Stable ascending sort by a strict comparison (models Python
`list.sort(key=...)`, which is stable). -/
def sortStable {α : Type} (lt : α → α → Bool) (l : List α) : List α :=
  l.foldl (fun acc x => insertBefore lt x acc) []

/-- The key-moment lines of `_generate_feedback` (count rendered
through `toString`). -/
def key_moments_of (metrics : Metrics) : List String :=
  (if metrics.vague_response_count.getD 0 > 0 then
     ["Review " ++ toString (metrics.vague_response_count.getD 0) ++
      " instances of vague language"]
   else []) ++
  (if metrics.deflection_count.getD 0 > 0 then
     ["Examine " ++ toString (metrics.deflection_count.getD 0) ++
      " deflection patterns"]
   else []) ++
  (if metrics.commitments_made.getD 0 > 0 then
     ["Note " ++ toString (metrics.commitments_made.getD 0) ++
      " successful commitments made"]
   else [])

/-- `EvaluatorAgent._generate_feedback`: sort the candidates by
(weakness-before-strength, negated dimension score), keep the first three
texts, pad with the generic filler up to three. -/
def generate_feedback (metrics : Metrics) (scores : PerformanceScore) :
    Feedback :=
  let sorted := sortStable (candLt scores) (coaching_candidates scores)
  let coaching0 := (sorted.take 3).map Prod.snd
  let coaching := coaching0 ++ List.replicate (3 - coaching0.length) filler_text
  let km := key_moments_of metrics
  { coaching_points := coaching.take 3
    key_moments :=
      if km = [] then
        ["Review full transcript for improvement opportunities"]
      else km }

/-- Modelled from the spec: the deflection-marker list as the specification
states it (the fourth marker reads "before we"). -/
def spec_deflection_markers : List String :=
  ["let's talk about", "what about", "but first",
   "before we", "can we discuss", "moving on"]

end Evaluator

/-! ## Helper lemmas -/

namespace Evaluator

/-- The 1-10 conversion clamps into `[1, 10]` for every input. -/
theorem convert_to_10_scale_mem (x : ℚ) :
    1 ≤ convert_to_10_scale x ∧ convert_to_10_scale x ≤ 10 := by
  unfold convert_to_10_scale
  refine ⟨le_max_left _ _, max_le (by norm_num) (min_le_left _ _)⟩

/-- Inserting one element grows the list length by one. -/
theorem insertBefore_length {α : Type} (lt : α → α → Bool) (x : α) :
    ∀ l : List α, (insertBefore lt x l).length = l.length + 1 := by
  intro l
  induction l with
  | nil => rfl
  | cons y t ih =>
    by_cases h : lt x y = true
    · simp [insertBefore, h]
    · simp [insertBefore, h, ih]

/-- The stable sort is a permutation in length. -/
theorem sortStable_length {α : Type} (lt : α → α → Bool) (l : List α) :
    (sortStable lt l).length = l.length := by
  suffices h : ∀ acc : List α,
      ((l.foldl (fun acc x => insertBefore lt x acc) acc).length
        = acc.length + l.length) by
    simpa [sortStable] using h []
  induction l with
  | nil => intro acc; simp
  | cons x t ih =>
    intro acc
    simp only [List.foldl_cons, List.length_cons]
    rw [ih (insertBefore lt x acc), insertBefore_length]
    omega

end Evaluator

namespace DifficultAI

/-- A fold of an option-valued accumulation step is a `filterMap`. -/
theorem foldl_option_snoc {α β : Type} (g : α → Option β) :
    ∀ (l : List α) (acc : List β),
      l.foldl (fun acc x =>
        match g x with
        | none => acc
        | some b => acc ++ [b]) acc = acc ++ l.filterMap g := by
  intro l
  induction l with
  | nil => intro acc; simp
  | cons p t ih =>
    intro acc
    simp only [List.foldl_cons, List.filterMap_cons]
    cases hg : g p with
    | none => simpa [hg] using ih acc
    | some b => simp [hg, ih (acc ++ [b])]

/-- `_update_difficulty` keeps the difficulty level inside `[1, 5]`. -/
theorem update_difficulty_level_mem (s : AIState) (a : Analysis)
    (h1 : 1 ≤ s.difficulty_level) (h5 : s.difficulty_level ≤ 5) :
    1 ≤ (update_difficulty s a).difficulty_level ∧
      (update_difficulty s a).difficulty_level ≤ 5 := by
  simp only [update_difficulty]
  split_ifs <;> simp_all <;> omega

/-- `_update_difficulty` adds one to the vague counter exactly when the
utterance was vague. -/
theorem update_difficulty_vague_eq (s : AIState) (a : Analysis) :
    (update_difficulty s a).vague_response_count
      = s.vague_response_count + (if a.is_vague then 1 else 0) := by
  simp only [update_difficulty]
  split_ifs <;> simp_all

/-- `_update_difficulty` adds one to the deflection counter exactly when the
utterance was deflecting. -/
theorem update_difficulty_deflection_eq (s : AIState) (a : Analysis) :
    (update_difficulty s a).deflection_count
      = s.deflection_count + (if a.is_deflecting then 1 else 0) := by
  simp only [update_difficulty]
  split_ifs <;> simp_all

/-- The vague counter never decreases over a run of update calls. -/
theorem foldl_update_vague_mono (steps : List Analysis) :
    ∀ s : AIState, s.vague_response_count
      ≤ (steps.foldl update_difficulty s).vague_response_count := by
  induction steps with
  | nil => intro s; simp
  | cons a t ih =>
    intro s
    calc s.vague_response_count
        ≤ (update_difficulty s a).vague_response_count := by
          rw [update_difficulty_vague_eq]; omega
      _ ≤ _ := by simpa using ih (update_difficulty s a)

/-- The deflection counter never decreases over a run of update calls. -/
theorem foldl_update_deflection_mono (steps : List Analysis) :
    ∀ s : AIState, s.deflection_count
      ≤ (steps.foldl update_difficulty s).deflection_count := by
  induction steps with
  | nil => intro s; simp
  | cons a t ih =>
    intro s
    calc s.deflection_count
        ≤ (update_difficulty s a).deflection_count := by
          rw [update_difficulty_deflection_eq]; omega
      _ ≤ _ := by simpa using ih (update_difficulty s a)

end DifficultAI

/-! ## Claim theorems -/

namespace DifficultAI

/-- C1: for every metrics record built from non-negative counts (naturals,
including counts far exceeding `total_exchanges`) and arbitrary rational
current/scenario difficulty values, each of the six dimension scores produced
by the evaluator (clarity, confidence, commitment, adaptability, composure,
effectiveness) lies within the 1-10 schema bounds, inclusive. -/
theorem scores_within_schema_bounds (v d c t : ℕ) (cd sd : ℚ) :
    (1 ≤ (Evaluator.evaluate_scores
        ⟨some v, some d, some c, some t, some cd, some sd⟩).clarity ∧
      (Evaluator.evaluate_scores
        ⟨some v, some d, some c, some t, some cd, some sd⟩).clarity ≤ 10) ∧
    (1 ≤ (Evaluator.evaluate_scores
        ⟨some v, some d, some c, some t, some cd, some sd⟩).confidence ∧
      (Evaluator.evaluate_scores
        ⟨some v, some d, some c, some t, some cd, some sd⟩).confidence ≤ 10) ∧
    (1 ≤ (Evaluator.evaluate_scores
        ⟨some v, some d, some c, some t, some cd, some sd⟩).commitment ∧
      (Evaluator.evaluate_scores
        ⟨some v, some d, some c, some t, some cd, some sd⟩).commitment ≤ 10) ∧
    (1 ≤ (Evaluator.evaluate_scores
        ⟨some v, some d, some c, some t, some cd, some sd⟩).adaptability ∧
      (Evaluator.evaluate_scores
        ⟨some v, some d, some c, some t, some cd, some sd⟩).adaptability ≤ 10) ∧
    (1 ≤ (Evaluator.evaluate_scores
        ⟨some v, some d, some c, some t, some cd, some sd⟩).composure ∧
      (Evaluator.evaluate_scores
        ⟨some v, some d, some c, some t, some cd, some sd⟩).composure ≤ 10) ∧
    (1 ≤ (Evaluator.evaluate_scores
        ⟨some v, some d, some c, some t, some cd, some sd⟩).effectiveness ∧
      (Evaluator.evaluate_scores
        ⟨some v, some d, some c, some t, some cd, some sd⟩).effectiveness ≤ 10) :=
  ⟨Evaluator.convert_to_10_scale_mem _, Evaluator.convert_to_10_scale_mem _,
   Evaluator.convert_to_10_scale_mem _, Evaluator.convert_to_10_scale_mem _,
   Evaluator.convert_to_10_scale_mem _, Evaluator.convert_to_10_scale_mem _⟩

/-- C2: starting from the initial session state (level 1, counters 0), after
every sequence of chat steps — each with an arbitrary classification result
and arbitrary newly extracted commitments, including all-vague-and-deflecting
sequences — the difficulty level stays in `[1, 5]`. -/
theorem difficulty_level_always_in_range (steps : List (Analysis × Nat)) :
    1 ≤ (steps.foldl chat_step initState).difficulty_level ∧
      (steps.foldl chat_step initState).difficulty_level ≤ 5 := by
  suffices h : ∀ s : AIState, 1 ≤ s.difficulty_level → s.difficulty_level ≤ 5 →
      1 ≤ (steps.foldl chat_step s).difficulty_level ∧
        (steps.foldl chat_step s).difficulty_level ≤ 5 by
    exact h initState (by norm_num [initState]) (by norm_num [initState])
  induction steps with
  | nil => intro s h1 h5; exact ⟨h1, h5⟩
  | cons p t ih =>
    intro s h1 h5
    have hstep := update_difficulty_level_mem
      { s with commitments_made := s.commitments_made + p.2 } p.1 h1 h5
    simpa [chat_step] using ih _ hstep.1 hstep.2

/-- C3: whenever `total_exchanges = 0`, regardless of all other field values,
the internal clarity, confidence and composure scores are exactly 100 and the
internal commitment score is exactly 0; on the 1-10 scale these convert to
10.0 and 1.0 respectively. -/
theorem zero_exchanges_default_scores (v d c cd sd : Option ℚ) :
    Evaluator.calculate_clarity_score ⟨v, d, c, some 0, cd, sd⟩ = 100 ∧
    Evaluator.calculate_confidence_score ⟨v, d, c, some 0, cd, sd⟩ = 100 ∧
    Evaluator.calculate_composure_score ⟨v, d, c, some 0, cd, sd⟩ = 100 ∧
    Evaluator.calculate_commitment_score ⟨v, d, c, some 0, cd, sd⟩ = 0 ∧
    (Evaluator.evaluate_scores ⟨v, d, c, some 0, cd, sd⟩).clarity = 10 ∧
    (Evaluator.evaluate_scores ⟨v, d, c, some 0, cd, sd⟩).confidence = 10 ∧
    (Evaluator.evaluate_scores ⟨v, d, c, some 0, cd, sd⟩).composure = 10 ∧
    (Evaluator.evaluate_scores ⟨v, d, c, some 0, cd, sd⟩).commitment = 1 := by
  have hcl : Evaluator.calculate_clarity_score ⟨v, d, c, some 0, cd, sd⟩ = 100 := by
    simp [Evaluator.calculate_clarity_score]
  have hcf : Evaluator.calculate_confidence_score ⟨v, d, c, some 0, cd, sd⟩ = 100 := by
    simp [Evaluator.calculate_confidence_score]
  have hcp : Evaluator.calculate_composure_score ⟨v, d, c, some 0, cd, sd⟩ = 100 := by
    simp [Evaluator.calculate_composure_score]
  have hcm : Evaluator.calculate_commitment_score ⟨v, d, c, some 0, cd, sd⟩ = 0 := by
    simp [Evaluator.calculate_commitment_score]
  refine ⟨hcl, hcf, hcp, hcm, ?_, ?_, ?_, ?_⟩ <;>
    norm_num [Evaluator.evaluate_scores, hcl, hcf, hcp, hcm,
      Evaluator.convert_to_10_scale, min_def, max_def]

/-- C4: on the concrete metrics record with 3 vague responses, 0 deflections,
1 commitment, 6 exchanges, current difficulty 0.6 and scenario difficulty
0.5, the internal 0-100 scores are exactly clarity 50, confidence 100,
commitment 50 and adaptability 98. -/
theorem example_metrics_internal_scores :
    Evaluator.calculate_clarity_score
      ⟨some 3, some 0, some 1, some 6, some (3/5), some (1/2)⟩ = 50 ∧
    Evaluator.calculate_confidence_score
      ⟨some 3, some 0, some 1, some 6, some (3/5), some (1/2)⟩ = 100 ∧
    Evaluator.calculate_commitment_score
      ⟨some 3, some 0, some 1, some 6, some (3/5), some (1/2)⟩ = 50 ∧
    Evaluator.calculate_adaptability_score
      ⟨some 3, some 0, some 1, some 6, some (3/5), some (1/2)⟩ = 98 := by
  refine ⟨?_, ?_, ?_, ?_⟩ <;>
    norm_num [Evaluator.calculate_clarity_score,
      Evaluator.calculate_confidence_score,
      Evaluator.calculate_commitment_score,
      Evaluator.calculate_adaptability_score, min_def, max_def]

/-- C9 counterexample: a record with `vague_response_count = 5` and
`total_exchanges` absent scores clarity 0 (the absent field defaults to 1,
not 0), while the `total_exchanges = 0` case would score clarity 100 — so
an absent `total_exchanges` does not behave as the zero-exchanges case. -/
theorem missing_total_exchanges_counterexample :
    Evaluator.calculate_clarity_score ⟨some 5, none, none, none, none, none⟩ = 0 ∧
    Evaluator.calculate_clarity_score ⟨some 5, none, none, some 0, none, none⟩ = 100 ∧
    Evaluator.calculate_clarity_score ⟨some 5, none, none, none, none, none⟩ ≠
      Evaluator.calculate_clarity_score ⟨some 5, none, none, some 0, none, none⟩ := by
  refine ⟨?_, ?_, ?_⟩ <;>
    norm_num [Evaluator.calculate_clarity_score, min_def, max_def]

/-- C9 amended: scoring is total over records with missing fields and never
raises; a missing counter field (vague, deflection, commitments) behaves as
0, while a missing `total_exchanges`, `current_difficulty` or
`scenario_difficulty` behaves as 1 — in particular a record with
`total_exchanges` absent scores exactly as the `total_exchanges = 1` case. -/
theorem scoring_default_substitution (v d c t cd sd : Option ℚ) :
    Evaluator.evaluate_scores ⟨v, d, c, none, cd, sd⟩
      = Evaluator.evaluate_scores ⟨v, d, c, some 1, cd, sd⟩ ∧
    Evaluator.evaluate_scores ⟨none, d, c, t, cd, sd⟩
      = Evaluator.evaluate_scores ⟨some 0, d, c, t, cd, sd⟩ ∧
    Evaluator.evaluate_scores ⟨v, none, c, t, cd, sd⟩
      = Evaluator.evaluate_scores ⟨v, some 0, c, t, cd, sd⟩ ∧
    Evaluator.evaluate_scores ⟨v, d, none, t, cd, sd⟩
      = Evaluator.evaluate_scores ⟨v, d, some 0, t, cd, sd⟩ ∧
    Evaluator.evaluate_scores ⟨v, d, c, t, none, sd⟩
      = Evaluator.evaluate_scores ⟨v, d, c, t, some 1, sd⟩ ∧
    Evaluator.evaluate_scores ⟨v, d, c, t, cd, none⟩
      = Evaluator.evaluate_scores ⟨v, d, c, t, cd, some 1⟩ :=
  ⟨rfl, rfl, rfl, rfl, rfl, rfl⟩

/-- C10: one `_update_difficulty` call increments the vague counter by
exactly 1 when `is_vague` holds and leaves it unchanged otherwise, likewise
the deflection counter for `is_deflecting`; consequently both counters are
monotonically non-decreasing over every sequence of update calls. -/
theorem update_difficulty_counter_behaviour (s : AIState) (a : Analysis)
    (steps : List Analysis) :
    (update_difficulty s a).vague_response_count
      = s.vague_response_count + (if a.is_vague then 1 else 0) ∧
    (update_difficulty s a).deflection_count
      = s.deflection_count + (if a.is_deflecting then 1 else 0) ∧
    s.vague_response_count
      ≤ (steps.foldl update_difficulty s).vague_response_count ∧
    s.deflection_count
      ≤ (steps.foldl update_difficulty s).deflection_count :=
  ⟨update_difficulty_vague_eq s a, update_difficulty_deflection_eq s a,
   foldl_update_vague_mono steps s, foldl_update_deflection_mono steps s⟩

end DifficultAI

namespace DifficultAI

/-- C5 (code behaviour at a concrete input): with clarity 3, confidence 4,
commitment 9 and the remaining dimensions 10, the feedback selector emits the
confidence weakness (score 4) before the clarity weakness (score 3): within
the weakness group the sort key `-score` under Python's ascending stable sort
puts the higher-scoring dimension first, contradicting the function's own
"Lower scores first" comment. -/
theorem feedback_sort_higher_weakness_first :
    (Evaluator.generate_feedback ⟨none, none, none, none, none, none⟩
        ⟨3, 4, 9, 10, 10, 10⟩).coaching_points
      = [Evaluator.confidence_weak_text, Evaluator.clarity_weak_text,
         Evaluator.commitment_strength_text] ∧
    Evaluator.confidence_weak_text ≠ Evaluator.clarity_weak_text := by
  constructor
  · decide
  · decide

/-- C6: for every metrics record and score set the feedback selector returns
exactly 3 coaching points: the texts of the first three sorted candidates,
padded with the fixed generic filler message when fewer than three threshold
rules fire, truncated to the first three when more fire. -/
theorem coaching_points_exactly_three (m : Evaluator.Metrics)
    (s : Evaluator.PerformanceScore) :
    ((Evaluator.generate_feedback m s).coaching_points).length = 3 ∧
    (Evaluator.generate_feedback m s).coaching_points
      = ((Evaluator.sortStable (Evaluator.candLt s)
            (Evaluator.coaching_candidates s)).take 3).map Prod.snd
        ++ List.replicate
            (3 - min 3 (Evaluator.coaching_candidates s).length)
            Evaluator.filler_text := by
  have hc0 : (((Evaluator.sortStable (Evaluator.candLt s)
        (Evaluator.coaching_candidates s)).take 3).map Prod.snd).length
      = min 3 (Evaluator.coaching_candidates s).length := by
    simp [List.length_take, Evaluator.sortStable_length]
  constructor
  · simp only [Evaluator.generate_feedback]
    simp [List.length_take, hc0]
  · simp only [Evaluator.generate_feedback]
    rw [List.take_of_length_le (by simp [hc0])]
    rw [hc0]

end DifficultAI

namespace DifficultAI

/-- C7 counterexample: the utterance "Before we start, here is the agenda"
matches the claimed marker "before we", yet the classifier reports
`is_deflecting = false` — the code's fourth marker is the longer string
"before we get to that". -/
theorem deflection_marker_counterexample :
    (analyze_response_quality
        "Before we start, here is the agenda").is_deflecting = false ∧
    (Evaluator.spec_deflection_markers.any (fun marker =>
        containsSub marker.toList
          (("Before we start, here is the agenda" : String).toList.map
            lowerChar))) = true := by
  constructor
  · decide
  · decide

/-- C7 amended: `is_deflecting` is true iff the lowercased text contains one
of the fixed markers "let's talk about", "what about", "but first",
"before we get to that", "can we discuss", "moving on" as a raw substring. -/
theorem is_deflecting_iff_marker_match (s : String) :
    (analyze_response_quality s).is_deflecting = true ↔
      ∃ marker ∈ deflection_indicators,
        containsSub marker.toList (s.toList.map lowerChar) = true := by
  simp [analyze_response_quality, List.any_eq_true]

/-- A fold of the commitment-extraction loop body over any phrase list is
the corresponding `filterMap`. -/
theorem foldl_commit_filterMap (msg low : List Char) :
    ∀ (l : List (List Char)) (acc : List (List Char)),
      l.foldl (fun commitments phrase =>
        match commitmentAt msg low phrase with
        | none => commitments
        | some c => commitments ++ [c]) acc
      = acc ++ l.filterMap (commitmentAt msg low) := by
  intro l
  induction l with
  | nil => intro acc; simp
  | cons p t ih =>
    intro acc
    simp only [List.foldl_cons, List.filterMap_cons]
    cases hg : commitmentAt msg low p with
    | none => simpa [hg] using ih acc
    | some b => simp [hg, ih (acc ++ [b])]

/-- C8: the commitment extractor returns, for each commitment-phrase marker
present as a case-insensitive substring, the whitespace-trimmed original-case
span from the marker's first position up to the next period (or the end of
the text), empty results discarded, in marker-list iteration order — i.e. it
is the `filterMap` of the per-marker extraction over the phrase list. -/
theorem extract_commitments_per_marker (user_message : List Char) :
    extract_commitments user_message
      = extract_commitments_claim user_message := by
  simp only [extract_commitments, extract_commitments_claim]
  rw [foldl_commit_filterMap user_message (user_message.map lowerChar)]
  simp

end DifficultAI
